import Mathlib

/-!
Shallow embedding of the AutoSniper deal-scoring and preference-matching
engine (`scoring.py` and `matching.py`).

Modelling conventions:
* Python strings are lists of characters (`Str`), so every string operation
  computes by structural recursion.
* Python numbers (ints and floats) are rationals; float arithmetic is modelled
  exactly, and `round(x, 1)` as round-half-to-even on rationals.
* A Python dict record with optional keys is a structure with `Option` fields
  (`none` = key absent or `None`).
* `datetime.now().year` is an explicit `currentYear` parameter threaded through
  every function that reads it.
* A function that can raise (`ZeroDivisionError` in `_calculate_mileage_score`)
  returns `Option`, with `none` for the exception.
-/

namespace AutoSniper

/-- Python `str` values, modelled as lists of characters. -/
abbrev Str := List Char

/-- Character list of a Lean string literal. -/
def pstr (s : String) : Str := s.toList

/-- Python `s.lower()`. -/
def strLower (a : Str) : Str := a.map Char.toLower

/-- Python `s.strip()`: drop whitespace from both ends. -/
def strTrim (a : Str) : Str :=
  ((a.dropWhile Char.isWhitespace).reverse.dropWhile Char.isWhitespace).reverse

/-- Whether the first list is an initial segment of the second. -/
def strStartsWith : Str → Str → Bool
  | [], _ => true
  | _ :: _, [] => false
  | a :: as, b :: bs => a == b && strStartsWith as bs

/-- Python `needle in haystack`: substring containment. -/
def pyIn (needle : Str) : Str → Bool
  | [] => strStartsWith needle []
  | c :: rest => strStartsWith needle (c :: rest) || pyIn needle rest

/-- Python `s.split(c)` for a single-character separator. -/
def splitOnChar (c : Char) : Str → List Str
  | [] => [[]]
  | x :: xs =>
    let r := splitOnChar c xs
    if x == c then [] :: r
    else
      match r with
      | [] => [[x]]
      | h :: t => (x :: h) :: t

/-- First-match association-list lookup (Python dict lookup; dict keys are
unique, so first match is the only match). -/
def lookupA {α β : Type} [DecidableEq α] (k : α) : List (α × β) → Option β
  | [] => none
  | (a, v) :: rest => if a = k then some v else lookupA k rest

/-- A scraped car listing (`listing` dict). `none` models an absent key or a
`None` value. -/
structure Listing where
  make : Option Str := none
  model : Option Str := none
  year : Option Int := none
  price : Option ℚ := none
  mileage : Option ℚ := none
  location : Option Str := none
  fuel_type : Option Str := none
  transmission : Option Str := none
  matched_to : Option Str := none
deriving DecidableEq

/-- The `score_details` dict added by the scoring engine. The `reasons` key is
present only on the suspicious path. -/
structure ScoreDetails where
  price_score : ℚ
  mileage_score : ℚ
  suspicious : Bool
  reasons : Option (List Str)
deriving DecidableEq

/-- A listing after `score_listing`: the original dict plus the `score`,
`grade` and `score_details` keys (all absent on an unscored pass-through). -/
structure ScoredListing where
  base : Listing
  score : Option ℚ := none
  grade : Option Str := none
  score_details : Option ScoreDetails := none
deriving DecidableEq

/-- A user preference dict. -/
structure Preference where
  user_id : Option Str := none
  id : Option Str := none
  make : Option Str := none
  model : Option Str := none
  min_year : Option Int := none
  max_year : Option Int := none
  min_price : Option ℚ := none
  max_price : Option ℚ := none
  location : Option Str := none
  fuel_type : Option Str := none
  transmission : Option Str := none
deriving DecidableEq

/-- Market data: `"make_model"` key to (year to average price). -/
abbrev MarketData := List (Str × List (Int × ℚ))

/-- `TYPICAL_MILEAGE` reference table (scoring.py lines 20-41), already in
ascending key order, matching `sorted(TYPICAL_MILEAGE.keys())`. -/
def TYPICAL_MILEAGE : List (Int × ℚ) :=
  [(1, 10000), (2, 20000), (3, 30000), (4, 40000), (5, 48000),
   (6, 56000), (7, 64000), (8, 72000), (9, 80000), (10, 88000),
   (11, 95000), (12, 102000), (13, 109000), (14, 115000), (15, 121000),
   (16, 127000), (17, 133000), (18, 138000), (19, 143000), (20, 148000)]

/-- `PRICE_DEPRECIATION` reference table (scoring.py lines 45-62), in dict
insertion order (also ascending). -/
def PRICE_DEPRECIATION : List (Int × ℚ) :=
  [(0, 1), (1, 4/5), (2, 7/10), (3, 3/5), (4, 1/2), (5, 21/50),
   (6, 9/25), (7, 31/100), (8, 27/100), (9, 6/25), (10, 21/100),
   (12, 9/50), (14, 3/20), (16, 13/100), (18, 11/100), (20, 1/10)]

/-- `GRADE_RANGES` (scoring.py lines 65-71), in dict insertion order. -/
def GRADE_RANGES : List (Str × ℚ × ℚ) :=
  [(pstr "A+", 90, 100), (pstr "A", 80, 89), (pstr "B", 70, 79),
   (pstr "C", 60, 69), (pstr "D", 0, 59)]

/-- `ScoringEngine._is_suspicious` (scoring.py lines 154-187). The two
age-based checks run only when both `year` and `price` are non-`None`. -/
def isSuspicious (currentYear : Int) (l : Listing) : Bool :=
  match l.price with
  | some p =>
    if p < 500 then true
    else if l.make.isNone ∨ l.model.isNone then true
    else
      match l.year with
      | some y =>
        if currentYear - y ≤ 3 ∧ p < 3000 then true
        else if currentYear - y ≤ 10 ∧ p < 1000 then true
        else false
      | none => false
  | none =>
    if l.make.isNone ∨ l.model.isNone then true
    else false

/-- Insertion step of `sorted` on integers. -/
def insertSortedInt (x : Int) : List Int → List Int
  | [] => [x]
  | y :: ys => if x ≤ y then x :: y :: ys else y :: insertSortedInt x ys

/-- Python `sorted` on a list of integers. -/
def sortInts (l : List Int) : List Int := l.foldr insertSortedInt []

/-- Interpolation loop of `_get_market_average` (scoring.py lines 378-386):
scan consecutive sorted years for `year1 <= year < year2` and interpolate
linearly. Falls off the end to `None` like the Python function. -/
def interpYears (data : List (Int × ℚ)) (year : Int) : List Int → Option ℚ
  | y1 :: y2 :: rest =>
    if y1 ≤ year ∧ year < y2 then
      some ((lookupA y1 data).getD 0 +
        ((year : ℚ) - (y1 : ℚ)) / ((y2 : ℚ) - (y1 : ℚ)) *
          ((lookupA y2 data).getD 0 - (lookupA y1 data).getD 0))
    else interpYears data year (y2 :: rest)
  | _ => none

/-- `ScoringEngine._get_market_average` (scoring.py lines 339-388). -/
def getMarketAverage (md : MarketData) (make mdl : Str) (year : Int) : Option ℚ :=
  if md.isEmpty then none
  else
    let key := strLower make ++ ('_' :: strLower mdl)
    match lookupA key md with
    | none => none
    | some model_data =>
      match lookupA year model_data with
      | some p => some p
      | none =>
        let available_years := sortInts (model_data.map Prod.fst)
        match available_years with
        | [] => none
        | y0 :: _ =>
          if year < y0 then none
          else if year > available_years.getLastD y0 then none
          else interpYears model_data year available_years

/-- Branch of the price curve for ratio <= 0.5 (scoring.py line 222). -/
def priceBandLow (_r : ℚ) : ℚ := 100

/-- Branch of the price curve for 0.5 < ratio <= 0.9 (scoring.py line 225). -/
def priceBandBelow (r : ℚ) : ℚ := 90 - (r - 1/2) * 75

/-- Branch of the price curve for 0.9 < ratio <= 1.1 (scoring.py line 228). -/
def priceBandMid (r : ℚ) : ℚ := 60 - (r - 9/10) * 100

/-- Branch of the price curve for 1.1 < ratio <= 1.5 (scoring.py line 231). -/
def priceBandAbove (r : ℚ) : ℚ := 40 - (r - 11/10) * 75

/-- Branch of the price curve for ratio > 1.5 (scoring.py line 233). -/
def priceBandHigh (_r : ℚ) : ℚ := 10

/-- The market-data price curve (scoring.py lines 221-233), assembled from its
branch formulas. -/
def priceCurve (r : ℚ) : ℚ :=
  if r ≤ 1/2 then priceBandLow r
  else if r ≤ 9/10 then priceBandBelow r
  else if r ≤ 11/10 then priceBandMid r
  else if r ≤ 3/2 then priceBandAbove r
  else priceBandHigh r

/-- Branch of the mileage curve for ratio <= 0.5 (scoring.py line 326). -/
def mileageBandLow (_r : ℚ) : ℚ := 90

/-- Branch of the mileage curve for 0.5 < ratio <= 0.9 (scoring.py line 329). -/
def mileageBandBelow (r : ℚ) : ℚ := 55 + (9/10 - r) * (175/2)

/-- Branch of the mileage curve for 0.9 < ratio <= 1.1 (scoring.py line 332). -/
def mileageBandMid (r : ℚ) : ℚ := 55 - (r - 9/10) * 50

/-- Branch of the mileage curve for 1.1 < ratio <= 1.5 (scoring.py line 335). -/
def mileageBandAbove (r : ℚ) : ℚ := 45 - (r - 11/10) * (175/2)

/-- Branch of the mileage curve for ratio > 1.5 (scoring.py line 337). -/
def mileageBandHigh (_r : ℚ) : ℚ := 10

/-- The mileage curve (scoring.py lines 325-337), assembled from its branch
formulas. -/
def mileageCurve (r : ℚ) : ℚ :=
  if r ≤ 1/2 then mileageBandLow r
  else if r ≤ 9/10 then mileageBandBelow r
  else if r ≤ 11/10 then mileageBandMid r
  else if r ≤ 3/2 then mileageBandAbove r
  else mileageBandHigh r

/-- Python `min(keys, key=lambda k: abs(k - target))`: scan keeping the first
element of minimal distance. -/
def closestKey (target first : Int) : List Int → Int
  | [] => first
  | k :: ks =>
    closestKey target (if (k - target).natAbs < (first - target).natAbs then k else first) ks

/-- The depreciation factor for a car age: nearest tabulated age's retention
fraction, defaulting to 0.1 (scoring.py lines 245-246). -/
def depreciationFactor (car_age : Int) : ℚ :=
  let keys := PRICE_DEPRECIATION.map Prod.fst
  let closest_age := closestKey car_age (keys.headD 0) keys.tail
  (lookupA closest_age PRICE_DEPRECIATION).getD (1/10)

/-- `ScoringEngine._calculate_price_score` (scoring.py lines 189-267).
The only divisions are by `market_average` (checked truthy), by the
depreciation factor (a positive table value) and by `expected_price`
(equal to the nonzero `price`), so unlike the mileage score this function
cannot raise and is modelled as total. -/
def calculatePriceScore (md : MarketData) (currentYear : Int) (l : Listing) : ℚ :=
  let make := strLower (l.make.getD [])
  let mdl := strLower (l.model.getD [])
  if l.price.getD 0 = 0 ∨ make = [] ∨ mdl = [] ∨ l.year.getD 0 = 0 then 50
  else
    let price := l.price.getD 0
    let year := l.year.getD 0
    let market_average := (getMarketAverage md make mdl year).getD 0
    if market_average ≠ 0 then priceCurve (price / market_average)
    else
      let car_age := currentYear - year
      if car_age < 0 then 50
      else
        let depreciation_factor := depreciationFactor car_age
        let estimated_original_price := price / depreciation_factor
        let expected_price := estimated_original_price * depreciation_factor
        let pr := price / expected_price
        if pr ≤ 7/10 then 90
        else if pr ≤ 9/10 then 70
        else if pr ≤ 11/10 then 50
        else if pr ≤ 13/10 then 30
        else 10

/-- Interpolation loop of `_calculate_mileage_score` (scoring.py lines
309-313): scan consecutive tabulated ages for `ages[i] <= age < ages[i+1]`.
If no pair matches, `expected_mileage` keeps its pre-loop value `dflt`. -/
def interpAges (age : Int) (dflt : ℚ) : List (Int × ℚ) → ℚ
  | (a1, m1) :: (a2, m2) :: rest =>
    if a1 ≤ age ∧ age < a2 then
      m1 + ((age : ℚ) - (a1 : ℚ)) / ((a2 : ℚ) - (a1 : ℚ)) * (m2 - m1)
    else interpAges age dflt ((a2, m2) :: rest)
  | _ => dflt

/-- Expected mileage for a car age (scoring.py lines 291-313). The table is
stored in ascending key order, so `sorted(TYPICAL_MILEAGE.keys())` is just the
key list; direct dict indexing of a known key is modelled with an unreachable
150000 default. -/
def expectedMileage (car_age : Int) : ℚ :=
  let keys := TYPICAL_MILEAGE.map Prod.fst
  let closest_age := closestKey car_age (keys.headD 0) keys.tail
  let base := (lookupA closest_age TYPICAL_MILEAGE).getD 150000
  match lookupA car_age TYPICAL_MILEAGE with
  | some v => v
  | none =>
    if car_age < keys.headD 0 then
      ((lookupA (keys.headD 0) TYPICAL_MILEAGE).getD 150000) *
        ((car_age : ℚ) / ((keys.headD 0 : Int) : ℚ))
    else if car_age > keys.getLastD 0 then
      ((lookupA (keys.getLastD 0) TYPICAL_MILEAGE).getD 150000) +
        5000 * ((car_age : ℚ) - ((keys.getLastD 0 : Int) : ℚ))
    else interpAges car_age base TYPICAL_MILEAGE

/-- `ScoringEngine._calculate_mileage_score` (scoring.py lines 269-337).
Returns `none` where Python raises `ZeroDivisionError` (expected mileage 0,
which happens exactly at car age 0 with a truthy mileage). -/
def calculateMileageScore (currentYear : Int) (l : Listing) : Option ℚ :=
  if l.mileage.getD 0 = 0 ∨ l.year.getD 0 = 0 then some 50
  else
    let mileage := l.mileage.getD 0
    let year := l.year.getD 0
    let car_age := currentYear - year
    if car_age < 0 then some 50
    else
      let expected_mileage := expectedMileage car_age
      if expected_mileage = 0 then none
      else some (mileageCurve (mileage / expected_mileage))

/-- Floor of a rational (`Int.fdiv` is floor division). -/
def ratFloor (q : ℚ) : Int := q.num.fdiv (q.den : Int)

/-- Python `round` to the nearest integer: round-half-to-even. -/
def roundHalfEven (q : ℚ) : Int :=
  let n := ratFloor q
  let r := q - (n : ℚ)
  if r < 1/2 then n
  else if 1/2 < r then n + 1
  else if n % 2 = 0 then n else n + 1

/-- Python `round(x, 1)`. -/
def pyRound1 (q : ℚ) : ℚ := (roundHalfEven (q * 10) : ℚ) / 10

/-- Linear scan of `GRADE_RANGES` returning the first band containing the
score (scoring.py lines 402-404). -/
def findGrade (score : ℚ) : List (Str × ℚ × ℚ) → Option Str
  | [] => none
  | (g, lo, hi) :: rest => if lo ≤ score ∧ score ≤ hi then some g else findGrade score rest

/-- `ScoringEngine._get_grade` (scoring.py lines 390-406). -/
def getGrade (score : ℚ) : Str :=
  if score < 0 then pstr "F"
  else (findGrade score GRADE_RANGES).getD (pstr "F")

/-- `ScoringEngine.score_listing` (scoring.py lines 86-130). `none` models an
escaping exception (from the mileage score). The grade is computed from the
unrounded overall score, as in the source. -/
def scoreListing (md : MarketData) (currentYear : Int) (l : Listing) :
    Option ScoredListing :=
  if isSuspicious currentYear l then
    some { base := l
           score := some 0
           grade := some (pstr "F")
           score_details := some
             { price_score := 0
               mileage_score := 0
               suspicious := true
               reasons := some [pstr "Suspiciously low price or missing critical information"] } }
  else
    let price_score := calculatePriceScore md currentYear l
    match calculateMileageScore currentYear l with
    | none => none
    | some mileage_score =>
      let overall_score := price_score * (3/5) + mileage_score * (2/5)
      some { base := l
             score := some (pyRound1 overall_score)
             grade := some (getGrade overall_score)
             score_details := some
               { price_score := pyRound1 price_score
                 mileage_score := pyRound1 mileage_score
                 suspicious := false
                 reasons := none } }

/-- `ScoringEngine.batch_score_listings` (scoring.py lines 132-152): a listing
whose scoring raises is passed through unscored. -/
def batchScoreListings (md : MarketData) (currentYear : Int) (ls : List Listing) :
    List ScoredListing :=
  ls.map (fun l =>
    match scoreListing md currentYear l with
    | some s => s
    | none => { base := l })

/-- The `match_details` dict built incrementally by `_check_match`
(matching.py lines 149-238). `none` models a key not yet set; the `score` and
`grade` keys are copied from the listing when present. -/
structure MatchDetails where
  make_match : Option Bool := none
  model_match : Option Bool := none
  year_match : Option Bool := none
  price_match : Option Bool := none
  location_match : Option Bool := none
  fuel_type_match : Option Bool := none
  transmission_match : Option Bool := none
  score : Option ℚ := none
  grade : Option Str := none
deriving DecidableEq

/-- A matched listing copy: the scored listing plus `match_details`,
`preference_id` and `user_id` (matching.py lines 119-124). -/
structure MatchItem where
  listing : ScoredListing
  match_details : MatchDetails
  preference_id : Str
  user_id : Str
deriving DecidableEq

/-- `MatchingEngine._extract_location` (matching.py lines 242-258). When a
colon is present, `split` always yields at least two parts, and part 1 is
taken. -/
def extractLocation (location_str : Str) : Str :=
  if location_str.contains ':' then
    let parts := splitOnChar ':' location_str
    if parts.length > 1 then strLower (strTrim (parts.getD 1 []))
    else strLower (strTrim location_str)
  else strLower (strTrim location_str)

/-- The make/model mandatory test (matching.py lines 157-160 and 165-168):
fails when the preference value is neither quoted-any nor empty, the listing
value is nonempty, and neither string contains the other. -/
def makeModelFails (pref listing_val : Str) : Bool :=
  if pref ≠ pstr "any" ∧ pref ≠ [] ∧ listing_val ≠ [] ∧
      pyIn pref listing_val = false ∧ pyIn listing_val pref = false
  then true else false

/-- The year mandatory test (matching.py lines 172-175). A `None` or falsy
(zero) listing year passes automatically. -/
def yearFails (year : Option Int) (min_year max_year : Int) : Bool :=
  match year with
  | none => false
  | some y => if y = 0 then false else if y < min_year ∨ y > max_year then true else false

/-- The price mandatory test (matching.py lines 179-182). A `None` or falsy
(zero) listing price passes automatically. -/
def priceFails (price : Option ℚ) (min_price max_price : ℚ) : Bool :=
  match price with
  | none => false
  | some p => if p = 0 then false else if p < min_price ∨ p > max_price then true else false

/-- The soft location criterion (matching.py lines 186-204): a boolean
recorded in `match_details`. -/
def locationDetail (location : Str) (listing_location : Option Str) : Bool :=
  if location ≠ [] ∧ strLower location ≠ pstr "any" then
    let ll := strLower (listing_location.getD [])
    let location_city := extractLocation location
    let listing_location_city := extractLocation ll
    if location_city ≠ [] ∧ listing_location_city ≠ [] then
      if pyIn location_city listing_location_city = false ∧
          pyIn listing_location_city location_city = false
      then false else true
    else true
  else true

/-- The soft fuel-type / transmission criterion (matching.py lines 207-214 and
217-224; the two blocks are identical up to the field they read). -/
def softDetail (pref : Str) (listing_val : Option Str) : Bool :=
  if pref ≠ [] ∧ strLower pref ≠ pstr "any" then
    let lv := strLower (listing_val.getD [])
    if lv ≠ [] ∧ pyIn pref lv = false then false else true
  else true

/-- `MatchingEngine._check_match` (matching.py lines 129-240). Note that by
line 227 every `match_details` key is set, so the `.get(key, True)` defaults
for the three soft criteria never apply. -/
def checkMatch (listing : ScoredListing) (make mdl : Str) (min_year max_year : Int)
    (min_price max_price : ℚ) (location fuel_type transmission : Str) :
    Bool × MatchDetails :=
  if (listing.score_details.map ScoreDetails.suspicious).getD false then (false, {})
  else
    let listing_make := strLower (listing.base.make.getD [])
    if makeModelFails make listing_make then (false, {})
    else
      let d1 : MatchDetails := { make_match := some true }
      let listing_model := strLower (listing.base.model.getD [])
      if makeModelFails mdl listing_model then (false, d1)
      else
        let d2 : MatchDetails := { d1 with model_match := some true }
        if yearFails listing.base.year min_year max_year then (false, d2)
        else
          let d3 : MatchDetails := { d2 with year_match := some true }
          if priceFails listing.base.price min_price max_price then (false, d3)
          else
            let d4 : MatchDetails := { d3 with price_match := some true }
            let d7 : MatchDetails :=
              { d4 with location_match := some (locationDetail location listing.base.location)
                        fuel_type_match := some (softDetail fuel_type listing.base.fuel_type)
                        transmission_match :=
                          some (softDetail transmission listing.base.transmission) }
            let is_match := d7.make_match.getD false && d7.model_match.getD false &&
              d7.year_match.getD false && d7.price_match.getD false &&
              d7.location_match.getD true && d7.fuel_type_match.getD true &&
              d7.transmission_match.getD true
            let d8 := if listing.score.isSome then
                { d7 with score := listing.score, grade := listing.grade }
              else d7
            (is_match, d8)

/-- `MatchingEngine.match_listings_to_preference` (matching.py lines 85-127):
extract and lower-case the preference criteria, skip listings already marked
as matched to this user, and keep the listings `_check_match` accepts. -/
def matchListingsToPreference (listings : List ScoredListing) (p : Preference) :
    List MatchItem :=
  let make := strLower (p.make.getD [])
  let mdl := strLower (p.model.getD [])
  let min_year := p.min_year.getD 0
  let max_year := p.max_year.getD 9999
  let min_price := p.min_price.getD 0
  let max_price := p.max_price.getD 9999999
  let location := strLower (p.location.getD [])
  let fuel_type := strLower (p.fuel_type.getD (pstr "Any"))
  let transmission := strLower (p.transmission.getD (pstr "Any"))
  listings.filterMap (fun l =>
    if l.base.matched_to.isSome ∧ pyIn (p.user_id.getD []) (l.base.matched_to.getD []) then
      none
    else
      let r := checkMatch l make mdl min_year max_year min_price max_price
        location fuel_type transmission
      if r.1 then
        some { listing := l, match_details := r.2, preference_id := p.id.getD [],
               user_id := p.user_id.getD [] }
      else none)

/-- Sort key `x.get('score', 0)` (matching.py line 78). -/
def scoreKey (m : MatchItem) : ℚ := m.listing.score.getD 0

/-- Sort key `x.get('price', 0)` (matching.py line 81). -/
def priceKey (m : MatchItem) : ℚ := m.listing.base.price.getD 0

/-- The ordering realized by Python's stable `sorted(..., key=score,
reverse=True)` on index-tagged elements: higher score first, ties in original
index order. -/
def descByScore (a b : ℕ × MatchItem) : Prop :=
  scoreKey b.2 < scoreKey a.2 ∨ (scoreKey a.2 = scoreKey b.2 ∧ a.1 ≤ b.1)

/-- The ordering realized by Python's stable `sorted(..., key=price)` on
index-tagged elements: lower price first, ties in original index order. -/
def ascByPrice (a b : ℕ × MatchItem) : Prop :=
  priceKey a.2 < priceKey b.2 ∨ (priceKey a.2 = priceKey b.2 ∧ a.1 ≤ b.1)

instance : DecidableRel descByScore := fun a b => by
  unfold descByScore
  infer_instance

instance : DecidableRel ascByPrice := fun a b => by
  unfold ascByPrice
  infer_instance

instance : IsTotal (ℕ × MatchItem) descByScore where
  total a b := by
    unfold descByScore
    rcases lt_trichotomy (scoreKey a.2) (scoreKey b.2) with h | h | h
    · exact Or.inr (Or.inl h)
    · rcases Nat.le_total a.1 b.1 with h2 | h2
      · exact Or.inl (Or.inr ⟨h, h2⟩)
      · exact Or.inr (Or.inr ⟨h.symm, h2⟩)
    · exact Or.inl (Or.inl h)

instance : IsTrans (ℕ × MatchItem) descByScore where
  trans a b c hab hbc := by
    unfold descByScore at *
    rcases hab with h1 | ⟨h1, h1i⟩ <;> rcases hbc with h2 | ⟨h2, h2i⟩
    · exact Or.inl (lt_trans h2 h1)
    · exact Or.inl (h2 ▸ h1)
    · exact Or.inl (h1 ▸ h2)
    · exact Or.inr ⟨h1.trans h2, h1i.trans h2i⟩

instance : IsTotal (ℕ × MatchItem) ascByPrice where
  total a b := by
    unfold ascByPrice
    rcases lt_trichotomy (priceKey a.2) (priceKey b.2) with h | h | h
    · exact Or.inl (Or.inl h)
    · rcases Nat.le_total a.1 b.1 with h2 | h2
      · exact Or.inl (Or.inr ⟨h, h2⟩)
      · exact Or.inr (Or.inr ⟨h.symm, h2⟩)
    · exact Or.inr (Or.inl h)

instance : IsTrans (ℕ × MatchItem) ascByPrice where
  trans a b c hab hbc := by
    unfold ascByPrice at *
    rcases hab with h1 | ⟨h1, h1i⟩ <;> rcases hbc with h2 | ⟨h2, h2i⟩
    · exact Or.inl (lt_trans h1 h2)
    · exact Or.inl (h2 ▸ h1)
    · exact Or.inl (h1 ▸ h2)
    · exact Or.inr ⟨h1.trans h2, h1i.trans h2i⟩

/-- The per-user ranking step of `find_matches` (matching.py lines 74-83):
when the first match carries a `score` key, stable-sort descending by score,
otherwise stable-sort ascending by price. Python's stable sort is realized as
a sort of index-tagged elements by the corresponding lexicographic order. -/
def sortUserMatches (ms : List MatchItem) : List MatchItem :=
  match ms with
  | [] => []
  | m0 :: _ =>
    if m0.listing.score.isSome then
      (List.insertionSort descByScore ms.enum).map Prod.snd
    else
      (List.insertionSort ascByPrice ms.enum).map Prod.snd

/-- Appending to `matches[user_id_str]`, initializing on first use
(matching.py lines 63-68); a Python dict preserves insertion order. -/
def extendEntry (acc : List (Str × List MatchItem)) (u : Str) (ms : List MatchItem) :
    List (Str × List MatchItem) :=
  match acc with
  | [] => [(u, ms)]
  | (k, v) :: rest => if k = u then (k, v ++ ms) :: rest else (k, v) :: extendEntry rest u ms

/-- `MatchingEngine.find_matches` (matching.py lines 33-83): score all
listings, accumulate per-user match lists (skipping preferences with a falsy
`user_id` and users with no matches), then sort each user's list. -/
def findMatches (md : MarketData) (currentYear : Int) (listings : List Listing)
    (prefs : List Preference) : List (Str × List MatchItem) :=
  let scored_listings := batchScoreListings md currentYear listings
  let grouped := prefs.foldl (fun acc p =>
    match p.user_id with
    | none => acc
    | some uid =>
      if uid = [] then acc
      else
        let user_matches := matchListingsToPreference scored_listings p
        if user_matches.isEmpty then acc else extendEntry acc uid user_matches) []
  grouped.map (fun e => (e.1, sortUserMatches e.2))

/-- `out` is obtained from `inp` by a stable sort for the order `r`: some
index-tagged arrangement of `inp`'s elements projects to `out` and is sorted
by `r` (which orders primarily by the sort key and breaks ties by original
index). -/
def stableSortedBy (r : ℕ × MatchItem → ℕ × MatchItem → Prop)
    (inp out : List MatchItem) : Prop :=
  ∃ idx : List (ℕ × MatchItem),
    idx.map Prod.snd = out ∧ List.Perm idx inp.enum ∧ List.Sorted r idx

/-! ### Concrete inputs for the specification scenarios -/

/-- The Scenario D listing: located "Manchester, UK", otherwise the Scenario C
listing. -/
def listingD : Listing :=
  { make := some (pstr "BMW")
    model := some (pstr "3 Series")
    year := some 2017
    price := some 15000
    location := some (pstr "Manchester, UK")
    fuel_type := some (pstr "Diesel")
    transmission := some (pstr "Automatic") }

/-- The Scenario C/D preference. -/
def prefD : Preference :=
  { user_id := some (pstr "456")
    make := some (pstr "BMW")
    model := some (pstr "3 Series")
    min_year := some 2015
    max_year := some 2020
    min_price := some 10000
    max_price := some 20000
    location := some (pstr "UK: London")
    fuel_type := some (pstr "Diesel")
    transmission := some (pstr "Automatic") }

/-- The Scenario D listing as scored by the engine. -/
def scoredD : ScoredListing :=
  (batchScoreListings [] 2025 [listingD]).headD { base := listingD }

/-- `_check_match` evaluated on the Scenario D pair, with the criteria
lower-cased exactly as `match_listings_to_preference` passes them. -/
def checkD : Bool × MatchDetails :=
  checkMatch scoredD (pstr "bmw") (pstr "3 series") 2015 2020 10000 20000
    (pstr "uk: london") (pstr "diesel") (pstr "automatic")

/-- The Scenario A listing. -/
def listingA : Listing :=
  { make := some (pstr "Ford")
    model := some (pstr "Focus")
    year := some 2018
    price := some 7500
    mileage := some 45000 }

/-- The Scenario A market data. -/
def mdA : MarketData := [(pstr "ford_focus", [(2018, 12000)])]

/-- A listing priced at exactly 500 with make and model present and car age
above 10 years. -/
def listing500 : Listing :=
  { make := some (pstr "Ford")
    model := some (pstr "Focus")
    year := some 2010
    price := some 500 }

/-! ### Claim theorems -/

unseal Rat.add Rat.sub Rat.mul Rat.inv in
/-- C1: the claim says a soft-criterion failure (here location: listing
"Manchester, UK" vs preference "UK: London") is recorded in `match_details`
but does not exclude the listing. In the code every `match_details` key is
always set before the final conjunction, so the `.get(key, True)` defaults
never apply and the soft failure excludes the pair: on the Scenario D input
all four mandatory criteria and both other soft criteria pass,
`location_match` is recorded `False`, and `_check_match` nevertheless returns
`is_match = False`, so the listing is dropped from the user's match list. -/
theorem C1_soft_location_failure_excludes :
    matchListingsToPreference (batchScoreListings [] 2025 [listingD]) prefD = [] ∧
    checkD.1 = false ∧
    checkD.2.make_match = some true ∧
    checkD.2.model_match = some true ∧
    checkD.2.year_match = some true ∧
    checkD.2.price_match = some true ∧
    checkD.2.location_match = some false ∧
    checkD.2.fuel_type_match = some true ∧
    checkD.2.transmission_match = some true := by
  decide

unseal Rat.add Rat.sub Rat.mul Rat.inv in
/-- C2, counterexample: the claim asserts the grade bands are gap-free on
[0,100] with grade(89.9) = A and F only outside [0,100]; but 89.9 lies in the
gap (89, 90) between the closed integer bands, so `_get_grade` falls through
every band and returns F. -/
theorem C2_counterexample_grade899 :
    getGrade (899/10) = pstr "F" ∧ getGrade (899/10) ≠ pstr "A" ∧
    (0 : ℚ) ≤ 899/10 ∧ (899/10 : ℚ) ≤ 100 := by
  decide

unseal Rat.add Rat.sub Rat.mul Rat.inv in
/-- C3, counterexample: the claim asserts both curves are continuous at every
seam; at the seam 0.5 of the price curve the two adjoining branch formulas
evaluate to 100 and 90. -/
theorem C3_counterexample_price_seam :
    priceBandLow (1/2) = 100 ∧ priceBandBelow (1/2) = 90 ∧
    priceBandLow (1/2) ≠ priceBandBelow (1/2) := by
  decide

unseal Rat.add Rat.sub Rat.mul Rat.inv in
/-- C3, amended: the mileage curve's adjoining branch formulas agree at all
four seams, and the price curve's agree at 0.9, 1.1 and 1.5; but at the price
seam 0.5 the adjoining formulas give 100 and 90 (a 10-point jump). -/
theorem C3_seam_agreement_amended :
    priceBandBelow (9/10) = priceBandMid (9/10) ∧
    priceBandMid (11/10) = priceBandAbove (11/10) ∧
    priceBandAbove (3/2) = priceBandHigh (3/2) ∧
    mileageBandLow (1/2) = mileageBandBelow (1/2) ∧
    mileageBandBelow (9/10) = mileageBandMid (9/10) ∧
    mileageBandMid (11/10) = mileageBandAbove (11/10) ∧
    mileageBandAbove (3/2) = mileageBandHigh (3/2) ∧
    priceBandLow (1/2) = 100 ∧ priceBandBelow (1/2) = 90 := by
  decide

set_option maxRecDepth 4000 in
unseal Rat.add Rat.sub Rat.mul Rat.inv in
/-- C5, counterexample: the claim asserts any listing priced exactly 500 is
suspicious (score 0, grade F) regardless of make/model; but the check is
`price < 500` strictly, and for a 15-year-old car with make and model present
neither age-based floor applies, so the listing is scored normally
(50 / grade D). -/
theorem C5_counterexample_price500 :
    listing500.price = some 500 ∧
    isSuspicious 2025 listing500 = false ∧
    scoreListing [] 2025 listing500 =
      some { base := listing500
             score := some 50
             grade := some (pstr "D")
             score_details := some { price_score := 50
                                     mileage_score := 50
                                     suspicious := false
                                     reasons := none } } := by
  decide

unseal Rat.add Rat.sub Rat.mul Rat.inv in
/-- C6, counterexample: on the Scenario A input the price ratio is
7500/12000 = 0.625 and the 0.5-0.9 band formula gives 90 - 0.125*75 = 80.625,
which differs from the claimed ~83.1 by 2.475. -/
theorem C6_counterexample_scenarioA :
    calculatePriceScore mdA 2025 listingA = 645/8 ∧
    (831/10 : ℚ) - 645/8 = 99/40 ∧ (2 : ℚ) < 99/40 := by
  decide

unseal Rat.add Rat.sub Rat.mul Rat.inv in
/-- C6, amended: on the Scenario A input the market average resolves to 12000,
the price ratio is 0.625, and the 0.5-0.9 band formula yields exactly 80.625
(~80.6), not ~83.1. -/
theorem C6_scenarioA_amended :
    getMarketAverage mdA (pstr "ford") (pstr "focus") 2018 = some 12000 ∧
    (7500 : ℚ) / 12000 = 5/8 ∧
    calculatePriceScore mdA 2025 listingA = priceBandBelow (5/8) ∧
    priceBandBelow (5/8) = 645/8 := by
  decide

/-- C4: a listing the suspicious check flags always comes back with score 0,
grade F, `suspicious = true` and the reason string recorded, whatever the
market data, the current year, and every other field of the listing. -/
theorem C4_suspicious_forces_zero (md : MarketData) (cy : Int) (l : Listing)
    (h : isSuspicious cy l = true) :
    scoreListing md cy l =
      some { base := l
             score := some 0
             grade := some (pstr "F")
             score_details := some
               { price_score := 0
                 mileage_score := 0
                 suspicious := true
                 reasons := some
                   [pstr "Suspiciously low price or missing critical information"] } } := by
  simp [scoreListing, h]

unseal Rat.add Rat.sub Rat.mul Rat.inv in
/-- Witness for C4 at a concrete suspicious listing (price 100 < 500). -/
theorem C4_witness :
    scoreListing [] 2025 { price := some 100 } =
      some { base := { price := some 100 }
             score := some 0
             grade := some (pstr "F")
             score_details := some
               { price_score := 0
                 mileage_score := 0
                 suspicious := true
                 reasons := some
                   [pstr "Suspiciously low price or missing critical information"] } } :=
  C4_suspicious_forces_zero [] 2025 { price := some 100 } (by decide)

/-- C5, amended: a listing priced exactly 500 with make and model present is
suspicious precisely when its year is present and the car age is at most 10
(which also covers the age-at-most-3 floor, since 500 < 1000 and 500 < 3000);
with the year absent, or a car older than 10 years, the 500-priced listing is
not suspicious. Only prices strictly below 500 are unconditionally
suspicious. -/
theorem C5_price500_amended (cy : Int) (l : Listing)
    (hp : l.price = some 500) (hmk : l.make.isSome = true) (hmd : l.model.isSome = true) :
    (isSuspicious cy l = true ↔ ∃ y, l.year = some y ∧ cy - y ≤ 10) := by
  have h1 : ¬ (l.make.isNone = true ∨ l.model.isNone = true) := by
    rcases hv : l.make with _ | v
    · rw [hv] at hmk; cases hmk
    · rcases hw : l.model with _ | w
      · rw [hw] at hmd; cases hmd
      · simp [hv, hw]
  unfold isSuspicious
  rcases hy : l.year with _ | y
  · simp only [hp, hy]
    rw [if_neg (by norm_num : ¬ ((500 : ℚ) < 500)), if_neg h1]
    simp
  · simp only [hp, hy]
    rw [if_neg (by norm_num : ¬ ((500 : ℚ) < 500)), if_neg h1]
    simp only [Option.some.injEq]
    constructor
    · intro hT
      split_ifs at hT with h3 h10
      · exact ⟨y, rfl, by omega⟩
      · exact ⟨y, rfl, h10.1⟩
    · rintro ⟨y2, rfl, hle⟩
      split_ifs with h3 h10
      · rfl
      · rfl
      · exact absurd ⟨hle, by norm_num⟩ h10

/-- Witness for C5's amended statement: a 5-year-old car priced exactly 500
with make and model present is suspicious. -/
theorem C5_witness :
    isSuspicious 2025 { make := some (pstr "Ford")
                        model := some (pstr "Focus")
                        year := some 2020
                        price := some 500 } = true :=
  (C5_price500_amended 2025
      { make := some (pstr "Ford")
        model := some (pstr "Focus")
        year := some 2020
        price := some 500 } rfl rfl rfl).mpr ⟨2020, rfl, by omega⟩

/-- A lookup with positive default over a table of positive values is
positive. -/
theorem lookupA_getD_pos (k : Int) (d : ℚ) :
    ∀ l : List (Int × ℚ), (∀ x ∈ l, 0 < x.2) → 0 < d → 0 < (lookupA k l).getD d
  | [], _, hd => hd
  | (a, v) :: rest, h, hd => by
    unfold lookupA
    split_ifs with he
    · simpa using h (a, v) (by simp)
    · exact lookupA_getD_pos k d rest (fun x hx => h x (List.mem_cons_of_mem _ hx)) hd

unseal Rat.add Rat.sub Rat.mul Rat.inv in
/-- All sixteen depreciation-table values are positive. -/
theorem PRICE_DEPRECIATION_pos : ∀ x ∈ PRICE_DEPRECIATION, 0 < x.2 := by
  decide

/-- The depreciation factor is positive for every car age. -/
theorem depreciationFactor_pos (a : Int) : 0 < depreciationFactor a := by
  unfold depreciationFactor
  exact lookupA_getD_pos _ _ _ PRICE_DEPRECIATION_pos (by norm_num)

/-- C9: with price, make, model and year all truthy, the year not in the
future, and no market average resolvable, the depreciation fallback computes
`expected_price = (price / factor) * factor = price`, so the ratio is exactly
1 and the coarse 5-step mapping always lands in its `<= 1.1` branch: the
price score is exactly 50 and the 90/70/30/10 branches are unreachable. -/
theorem C9_fallback_price_score_50 (md : MarketData) (cy : Int) (l : Listing)
    (p : ℚ) (y : Int)
    (hp : l.price = some p) (hpne : p ≠ 0)
    (hmk : strLower (l.make.getD []) ≠ []) (hmdl : strLower (l.model.getD []) ≠ [])
    (hy : l.year = some y) (hyne : y ≠ 0) (hycy : y ≤ cy)
    (hma : getMarketAverage md (strLower (l.make.getD []))
      (strLower (l.model.getD [])) y = none) :
    calculatePriceScore md cy l = 50 := by
  unfold calculatePriceScore
  rw [hp, hy]
  simp only [Option.getD_some]
  rw [if_neg (by push_neg; exact ⟨hpne, hmk, hmdl, hyne⟩)]
  rw [hma]
  simp only [Option.getD_none]
  rw [if_neg (by norm_num : ¬ ((0 : ℚ) ≠ 0))]
  rw [if_neg (by omega : ¬ (cy - y < 0))]
  have hf : depreciationFactor (cy - y) ≠ 0 := (depreciationFactor_pos _).ne'
  have hone : p / (p / depreciationFactor (cy - y) * depreciationFactor (cy - y)) = 1 := by
    rw [div_mul_cancel₀ p hf, div_self hpne]
  simp only [hone]
  rw [if_neg (by norm_num), if_neg (by norm_num), if_pos (by norm_num)]

/-- Witness for C9 at a concrete listing with empty market data. -/
theorem C9_witness :
    calculatePriceScore [] 2025 { make := some (pstr "Vauxhall")
                                  model := some (pstr "Corsa")
                                  year := some 2012
                                  price := some 4000 } = 50 :=
  C9_fallback_price_score_50 [] 2025
    { make := some (pstr "Vauxhall")
      model := some (pstr "Corsa")
      year := some 2012
      price := some 4000 } 4000 2012 rfl (by norm_num) (by decide) (by decide)
    rfl (by omega) (by omega) rfl

unseal Rat.add Rat.sub Rat.mul Rat.inv in
/-- Extrapolating below the youngest tabulated age at car age 0 yields
expected mileage 10000 * (0/1) = 0. -/
theorem expectedMileage_zero : expectedMileage 0 = 0 := by
  decide

/-- C10: for a listing whose year equals the current (nonzero) year and whose
mileage is truthy, and which passes the suspicious check, the mileage score
divides by expected mileage 0: `score_listing` propagates the exception
(`none`), and `batch_score_listings` catches it and passes the listing
through unscored. -/
theorem C10_age_zero_exception (md : MarketData) (cy : Int) (l : Listing) (m : ℚ)
    (hm : l.mileage = some m) (hmne : m ≠ 0) (hy : l.year = some cy) (hcy : cy ≠ 0)
    (hsus : isSuspicious cy l = false) :
    calculateMileageScore cy l = none ∧ scoreListing md cy l = none ∧
    batchScoreListings md cy [l] = [{ base := l }] := by
  have hms : calculateMileageScore cy l = none := by
    unfold calculateMileageScore
    rw [hm, hy]
    simp only [Option.getD_some]
    rw [if_neg (by push_neg; exact ⟨hmne, hcy⟩)]
    rw [if_neg (by omega : ¬ (cy - cy < 0))]
    rw [sub_self, expectedMileage_zero]
    rw [if_pos rfl]
  have hsl : scoreListing md cy l = none := by
    simp [scoreListing, hsus, hms]
  exact ⟨hms, hsl, by simp [batchScoreListings, hsl]⟩

unseal Rat.add Rat.sub Rat.mul Rat.inv in
/-- Witness for C10: a current-year listing with nonzero mileage and a price
passing every floor. -/
theorem C10_witness :
    calculateMileageScore 2025 { make := some (pstr "Ford")
                                 model := some (pstr "Focus")
                                 year := some 2025
                                 price := some 5000
                                 mileage := some 30000 } = none ∧
    scoreListing [] 2025 { make := some (pstr "Ford")
                           model := some (pstr "Focus")
                           year := some 2025
                           price := some 5000
                           mileage := some 30000 } = none ∧
    batchScoreListings [] 2025 [{ make := some (pstr "Ford")
                                  model := some (pstr "Focus")
                                  year := some 2025
                                  price := some 5000
                                  mileage := some 30000 }] =
      [{ base := { make := some (pstr "Ford")
                   model := some (pstr "Focus")
                   year := some 2025
                   price := some 5000
                   mileage := some 30000 } }] :=
  C10_age_zero_exception [] 2025
    { make := some (pstr "Ford")
      model := some (pstr "Focus")
      year := some 2025
      price := some 5000
      mileage := some 30000 } 30000 rfl (by norm_num) rfl (by omega) (by decide)

unseal Rat.add Rat.sub Rat.mul Rat.inv in
/-- C2, amended: on [0,100] the grade is A+/A/B/C/D exactly on the closed
integer-bounded bands [90,100], [80,89], [70,79], [60,69], [0,59]; scores in
the four unit gaps between bands get F, so the bands are not gap-free over
the rationals: grade(89.9) = F (not A) while grade(90.0) = A+. -/
theorem C2_grade_bands_amended :
    (∀ s : ℚ, 0 ≤ s → s ≤ 100 →
      ((getGrade s = pstr "A+" ↔ 90 ≤ s) ∧
       (getGrade s = pstr "A" ↔ (80 ≤ s ∧ s ≤ 89)) ∧
       (getGrade s = pstr "B" ↔ (70 ≤ s ∧ s ≤ 79)) ∧
       (getGrade s = pstr "C" ↔ (60 ≤ s ∧ s ≤ 69)) ∧
       (getGrade s = pstr "D" ↔ s ≤ 59) ∧
       (getGrade s = pstr "F" ↔
         ((59 < s ∧ s < 60) ∨ (69 < s ∧ s < 70) ∨ (79 < s ∧ s < 80) ∨ (89 < s ∧ s < 90))))) ∧
    getGrade (899/10) = pstr "F" ∧ getGrade (90 : ℚ) = pstr "A+" := by
  refine ⟨?_, by decide, by decide⟩
  intro s h0 h100
  unfold getGrade
  rw [if_neg (not_lt.mpr h0)]
  simp only [GRADE_RANGES, findGrade]
  split_ifs with h1 h2 h3 h4 h5
  · simp only [Option.getD_some]
    exact ⟨iff_of_true trivial h1.1,
      iff_of_false (by decide) (fun hc => by linarith [h1.1, hc.2]),
      iff_of_false (by decide) (fun hc => by linarith [h1.1, hc.2]),
      iff_of_false (by decide) (fun hc => by linarith [h1.1, hc.2]),
      iff_of_false (by decide) (fun hc => by linarith [h1.1]),
      iff_of_false (by decide)
        (by rintro (⟨a, b⟩ | ⟨a, b⟩ | ⟨a, b⟩ | ⟨a, b⟩) <;> linarith [h1.1])⟩
  · simp only [Option.getD_some]
    exact ⟨iff_of_false (by decide) (fun hc => by linarith [h2.2]),
      iff_of_true trivial h2,
      iff_of_false (by decide) (fun hc => by linarith [h2.1, hc.2]),
      iff_of_false (by decide) (fun hc => by linarith [h2.1, hc.2]),
      iff_of_false (by decide) (fun hc => by linarith [h2.1]),
      iff_of_false (by decide)
        (by rintro (⟨a, b⟩ | ⟨a, b⟩ | ⟨a, b⟩ | ⟨a, b⟩) <;> linarith [h2.1, h2.2])⟩
  · simp only [Option.getD_some]
    exact ⟨iff_of_false (by decide) (fun hc => by linarith [h3.2]),
      iff_of_false (by decide) (fun hc => by linarith [h3.2, hc.1]),
      iff_of_true trivial h3,
      iff_of_false (by decide) (fun hc => by linarith [h3.1, hc.2]),
      iff_of_false (by decide) (fun hc => by linarith [h3.1]),
      iff_of_false (by decide)
        (by rintro (⟨a, b⟩ | ⟨a, b⟩ | ⟨a, b⟩ | ⟨a, b⟩) <;> linarith [h3.1, h3.2])⟩
  · simp only [Option.getD_some]
    exact ⟨iff_of_false (by decide) (fun hc => by linarith [h4.2]),
      iff_of_false (by decide) (fun hc => by linarith [h4.2, hc.1]),
      iff_of_false (by decide) (fun hc => by linarith [h4.2, hc.1]),
      iff_of_true trivial h4,
      iff_of_false (by decide) (fun hc => by linarith [h4.1]),
      iff_of_false (by decide)
        (by rintro (⟨a, b⟩ | ⟨a, b⟩ | ⟨a, b⟩ | ⟨a, b⟩) <;> linarith [h4.1, h4.2])⟩
  · simp only [Option.getD_some]
    exact ⟨iff_of_false (by decide) (fun hc => by linarith [h5.2]),
      iff_of_false (by decide) (fun hc => by linarith [h5.2, hc.1]),
      iff_of_false (by decide) (fun hc => by linarith [h5.2, hc.1]),
      iff_of_false (by decide) (fun hc => by linarith [h5.2, hc.1]),
      iff_of_true trivial h5.2,
      iff_of_false (by decide)
        (by rintro (⟨a, b⟩ | ⟨a, b⟩ | ⟨a, b⟩ | ⟨a, b⟩) <;> linarith [h5.2])⟩
  · simp only [Option.getD_none]
    push_neg at h1 h2 h3 h4 h5
    have hs90 : s < 90 := by
      by_contra hc
      push_neg at hc
      linarith [h1 hc]
    have hs59 : 59 < s := h5 h0
    refine ⟨iff_of_false (by decide) (fun hc => by linarith [h1 hc]),
      iff_of_false (by decide) (fun hc => by linarith [h2 hc.1, hc.2]),
      iff_of_false (by decide) (fun hc => by linarith [h3 hc.1, hc.2]),
      iff_of_false (by decide) (fun hc => by linarith [h4 hc.1, hc.2]),
      iff_of_false (by decide) (fun hc => by linarith [hs59]),
      iff_of_true trivial ?_⟩
    by_cases hb1 : s < 60
    · exact Or.inl ⟨hs59, hb1⟩
    · push_neg at hb1
      have h69 : 69 < s := h4 hb1
      by_cases hb2 : s < 70
      · exact Or.inr (Or.inl ⟨h69, hb2⟩)
      · push_neg at hb2
        have h79 : 79 < s := h3 hb2
        by_cases hb3 : s < 80
        · exact Or.inr (Or.inr (Or.inl ⟨h79, hb3⟩))
        · push_neg at hb3
          have h89 : 89 < s := h2 hb3
          exact Or.inr (Or.inr (Or.inr ⟨h89, hs90⟩))

/-- Witness for C2's amended statement at the score 85. -/
theorem C2_witness : getGrade (85 : ℚ) = pstr "A" :=
  ((C2_grade_bands_amended.1 85 (by norm_num) (by norm_num)).2.1).mpr
    ⟨by norm_num, by norm_num⟩

/-- The final match verdict of `_check_match`, characterized: every criterion
(including the three soft ones) must hold, since by the final conjunction
every `match_details` key has been set. -/
theorem checkMatch_fst (L : ScoredListing) (mk mdl : Str) (minY maxY : Int)
    (minP maxP : ℚ) (loc ft tr : Str) :
    (checkMatch L mk mdl minY maxY minP maxP loc ft tr).1 =
      (!(L.score_details.map ScoreDetails.suspicious).getD false &&
       !makeModelFails mk (strLower (L.base.make.getD [])) &&
       !makeModelFails mdl (strLower (L.base.model.getD [])) &&
       !yearFails L.base.year minY maxY &&
       !priceFails L.base.price minP maxP &&
       locationDetail loc L.base.location &&
       softDetail ft L.base.fuel_type &&
       softDetail tr L.base.transmission) := by
  unfold checkMatch
  cases h1 : (L.score_details.map ScoreDetails.suspicious).getD false <;>
  cases h2 : makeModelFails mk (strLower (L.base.make.getD [])) <;>
  cases h3 : makeModelFails mdl (strLower (L.base.model.getD [])) <;>
  cases h4 : yearFails L.base.year minY maxY <;>
  cases h5 : priceFails L.base.price minP maxP <;>
    simp [h1, h2, h3, h4, h5]

/-- Widening the year range preserves a pass of the year test. -/
theorem yearFails_mono {year : Option Int} {lo hi lo2 hi2 : Int}
    (hlo : lo2 ≤ lo) (hhi : hi ≤ hi2) (h : yearFails year lo hi = false) :
    yearFails year lo2 hi2 = false := by
  cases year with
  | none => rfl
  | some y =>
    simp only [yearFails] at h ⊢
    by_cases h0 : y = 0
    · rw [if_pos h0]
    · rw [if_neg h0] at h ⊢
      split_ifs at h with hc
      exact if_neg (by push_neg at hc ⊢; omega)

/-- Widening the price range preserves a pass of the price test. -/
theorem priceFails_mono {price : Option ℚ} {lo hi lo2 hi2 : ℚ}
    (hlo : lo2 ≤ lo) (hhi : hi ≤ hi2) (h : priceFails price lo hi = false) :
    priceFails price lo2 hi2 = false := by
  cases price with
  | none => rfl
  | some p =>
    simp only [priceFails] at h ⊢
    by_cases h0 : p = 0
    · rw [if_pos h0]
    · rw [if_neg h0] at h ⊢
      split_ifs at h with hc
      refine if_neg ?_
      push_neg at hc ⊢
      exact ⟨by linarith [hc.1], by linarith [hc.2]⟩

/-- C7: matching is monotonic in the numeric ranges: a listing that matches a
preference still matches after the preference's price and year ranges are
widened, all other criteria unchanged. -/
theorem C7_matching_monotonic (L : ScoredListing) (mk mdl : Str)
    (minY maxY minY2 maxY2 : Int) (minP maxP minP2 maxP2 : ℚ) (loc ft tr : Str)
    (hY1 : minY2 ≤ minY) (hY2 : maxY ≤ maxY2) (hP1 : minP2 ≤ minP) (hP2 : maxP ≤ maxP2)
    (h : (checkMatch L mk mdl minY maxY minP maxP loc ft tr).1 = true) :
    (checkMatch L mk mdl minY2 maxY2 minP2 maxP2 loc ft tr).1 = true := by
  rw [checkMatch_fst] at h ⊢
  simp only [Bool.and_eq_true, Bool.not_eq_true'] at h ⊢
  obtain ⟨⟨⟨⟨⟨⟨⟨hs, hmk⟩, hmd⟩, hyr⟩, hpr⟩, hl⟩, hf⟩, ht⟩ := h
  exact ⟨⟨⟨⟨⟨⟨⟨hs, hmk⟩, hmd⟩, yearFails_mono hY1 hY2 hyr⟩,
    priceFails_mono hP1 hP2 hpr⟩, hl⟩, hf⟩, ht⟩

unseal Rat.add Rat.sub Rat.mul Rat.inv in
/-- Witness for C7: a listing matching a narrow year/price window still
matches the widened window. -/
theorem C7_witness :
    (checkMatch { base := { year := some 2018, price := some 7500 } } [] [] 2000 2030
      0 100000 [] (pstr "any") (pstr "any")).1 = true :=
  C7_matching_monotonic { base := { year := some 2018, price := some 7500 } } [] []
    2016 2020 2000 2030 5000 9000 0 100000 [] (pstr "any") (pstr "any")
    (by omega) (by omega) (by norm_num) (by norm_num) (by decide)

/-- The ranking step applied to a list of all-scored matches is a stable
descending sort by score. -/
theorem sortUserMatches_desc (ms : List MatchItem)
    (h : ∀ m ∈ ms, m.listing.score.isSome) :
    stableSortedBy descByScore ms (sortUserMatches ms) := by
  cases ms with
  | nil => exact ⟨[], rfl, by simp, List.sorted_nil⟩
  | cons m0 rest =>
    have h0 : m0.listing.score.isSome = true := h m0 (by simp)
    simp only [sortUserMatches]
    rw [if_pos h0]
    exact ⟨List.insertionSort descByScore ((m0 :: rest).enum), rfl,
      List.perm_insertionSort _ _, List.sorted_insertionSort _ _⟩

/-- The ranking step applied to a list of all-unscored matches is a stable
ascending sort by price. -/
theorem sortUserMatches_asc (ms : List MatchItem)
    (h : ∀ m ∈ ms, m.listing.score = none) :
    stableSortedBy ascByPrice ms (sortUserMatches ms) := by
  cases ms with
  | nil => exact ⟨[], rfl, by simp, List.sorted_nil⟩
  | cons m0 rest =>
    have h0 : ¬ (m0.listing.score.isSome = true) := by simp [h m0 (by simp)]
    simp only [sortUserMatches]
    rw [if_neg h0]
    exact ⟨List.insertionSort ascByPrice ((m0 :: rest).enum), rfl,
      List.perm_insertionSort _ _, List.sorted_insertionSort _ _⟩

/-- C8: every per-user list in the output of `find_matches` is the ranking
step applied to that user's accumulated matches: a stable descending sort by
score when the matches carry scores, and a stable ascending sort by price
when none do (ties retain the original accumulation order in both cases). -/
theorem C8_per_user_ranking (md : MarketData) (cy : Int) (listings : List Listing)
    (prefs : List Preference) (u : Str) (out : List MatchItem)
    (h : (u, out) ∈ findMatches md cy listings prefs) :
    ∃ inp, out = sortUserMatches inp ∧
      ((∀ m ∈ inp, m.listing.score.isSome) → stableSortedBy descByScore inp out) ∧
      ((∀ m ∈ inp, m.listing.score = none) → stableSortedBy ascByPrice inp out) := by
  simp only [findMatches, List.mem_map, Prod.mk.injEq] at h
  obtain ⟨⟨u2, inp⟩, hmem, hu, ho⟩ := h
  exact ⟨inp, ho.symm, fun hall => ho ▸ sortUserMatches_desc inp hall,
    fun hall => ho ▸ sortUserMatches_asc inp hall⟩

/-- The C8 witness listing. -/
def lwC8 : Listing :=
  { make := some (pstr "Ford")
    model := some (pstr "Focus")
    year := some 2015
    price := some 6000 }

/-- The C8 witness preference (only a user id; every criterion defaults). -/
def pwC8 : Preference := { user_id := some (pstr "123") }

/-- The single match the C8 witness run produces. -/
def miC8 : MatchItem :=
  { listing := { base := lwC8
                 score := some 50
                 grade := some (pstr "D")
                 score_details := some { price_score := 50
                                         mileage_score := 50
                                         suspicious := false
                                         reasons := none } }
    match_details := { make_match := some true
                       model_match := some true
                       year_match := some true
                       price_match := some true
                       location_match := some true
                       fuel_type_match := some true
                       transmission_match := some true
                       score := some 50
                       grade := some (pstr "D") }
    preference_id := []
    user_id := pstr "123" }

set_option maxRecDepth 8000 in
unseal Rat.add Rat.sub Rat.mul Rat.inv in
/-- Witness for C8 on a one-listing, one-preference run. -/
theorem C8_witness :
    ∃ inp, [miC8] = sortUserMatches inp ∧
      ((∀ m ∈ inp, m.listing.score.isSome) → stableSortedBy descByScore inp [miC8]) ∧
      ((∀ m ∈ inp, m.listing.score = none) → stableSortedBy ascByPrice inp [miC8]) :=
  C8_per_user_ranking [] 2025 [lwC8] [pwC8] (pstr "123") [miC8] (by decide)

end AutoSniper
